import Mathlib

/-!
Verification of the NEO close-approach data model (`models.py`) and the two
serializers (`write.py`) of the cd0010 advanced-python project.

The embedding is shallow: Python classes become Lean structures, the
constructors become total functions into `Except PyError _` (a Python
exception is an `.error`), and the two writers become functions returning
the file effect they perform together with the content they would write.
The date parsing/formatting helpers (`helpers.cd_to_datetime`,
`helpers.datetime_to_str`) are external collaborators whose source is not
part of the covered code, so they are modelled from the spec, as is
Python's built-in `float` coercion of strings.
-/

/-- Errors raised by the modelled Python code: `ValueError` from numeric or
date coercion, `AttributeError` from dereferencing a `None` reference. -/
inductive PyError where
  | valueError
  | attributeError
deriving DecidableEq, Repr

/-- A Python float as the data model uses it: either the NaN sentinel or a
finite value, modelled as a rational (no claim depends on rounding). -/
inductive PyFloat where
  | nan
  | num (q : ℚ)
deriving DecidableEq, Repr

/-- Numeric value of a list of decimal digit characters. -/
def digitsVal (l : List Char) : Nat :=
  l.foldl (fun a c => a * 10 + (c.toNat - 48)) 0

/-- Parses an unsigned decimal literal: digits with an optional single
decimal point, at least one digit overall. -/
def parseUnsigned (l : List Char) : Option ℚ :=
  match l.span Char.isDigit with
  | (intPart, rest) =>
    match rest with
    | [] => if intPart.isEmpty then none else some (digitsVal intPart : ℚ)
    | '.' :: frac =>
      if frac.all Char.isDigit && !(intPart.isEmpty && frac.isEmpty) then
        some (mkRat (digitsVal intPart * 10 ^ frac.length + digitsVal frac)
          (10 ^ frac.length))
      else none
    | _ => none

/-- Modelled from the spec: Python's built-in `float()` coercion applied to
the string fields of the source dataset.  It accepts an optionally signed
decimal literal (digits with an optional decimal point, surrounding spaces
stripped) and the NaN spelling, and raises `ValueError` (here: `none`) on
everything else, in particular on the empty string. -/
def parseFloat (s : String) : Option PyFloat :=
  let cs := ((s.toList.dropWhile (· = ' ')).reverse.dropWhile (· = ' ')).reverse
  match cs with
  | [] => none
  | '-' :: rest => (parseUnsigned rest).map (fun q => PyFloat.num (-q))
  | '+' :: rest => (parseUnsigned rest).map PyFloat.num
  | _ =>
    if cs = ['n', 'a', 'n'] then some PyFloat.nan
    else (parseUnsigned cs).map PyFloat.num

/-- Modelled from the spec: the timezone-naive UTC calendar-time value
produced by the external date parser (`helpers.cd_to_datetime`). -/
structure Datetime where
  year : Nat
  month : Nat
  day : Nat
  hour : Nat
  minute : Nat
  second : Nat
deriving DecidableEq, Repr

/-- Zero-pads a number to two digits, as both datetime renderings do. -/
def pad2 (n : Nat) : String :=
  if n < 10 then "0" ++ toString n else toString n

/-- Zero-pads a year to four digits. -/
def pad4 (n : Nat) : String :=
  if n < 10 then "000" ++ toString n
  else if n < 100 then "00" ++ toString n
  else if n < 1000 then "0" ++ toString n
  else toString n

/-- Modelled from the spec: the minute-precision display string produced by
the shared formatter `helpers.datetime_to_str` (format `%Y-%m-%d %H:%M`,
i.e. no seconds). -/
def datetime_to_str (d : Datetime) : String :=
  pad4 d.year ++ "-" ++ pad2 d.month ++ "-" ++ pad2 d.day ++ " " ++
    pad2 d.hour ++ ":" ++ pad2 d.minute

/-- Modelled from the spec: the natural full string form of a datetime value
(Python `str(datetime)`), which always carries the seconds field — the form
the CSV writer's cells are rendered with, as opposed to the minute-truncated
display form `datetime_to_str`. -/
def Datetime.fullStr (d : Datetime) : String :=
  datetime_to_str d ++ ":" ++ pad2 d.second

/-- Month number of a three-letter English month abbreviation. -/
def monthOfAbbrev : List Char → Option Nat
  | ['J', 'a', 'n'] => some 1
  | ['F', 'e', 'b'] => some 2
  | ['M', 'a', 'r'] => some 3
  | ['A', 'p', 'r'] => some 4
  | ['M', 'a', 'y'] => some 5
  | ['J', 'u', 'n'] => some 6
  | ['J', 'u', 'l'] => some 7
  | ['A', 'u', 'g'] => some 8
  | ['S', 'e', 'p'] => some 9
  | ['O', 'c', 't'] => some 10
  | ['N', 'o', 'v'] => some 11
  | ['D', 'e', 'c'] => some 12
  | _ => none

/-- Splits a character list on a separator character. -/
def splitOnChar (sep : Char) (l : List Char) : List (List Char) :=
  match l with
  | [] => [[]]
  | c :: rest =>
    let r := splitOnChar sep rest
    if c = sep then [] :: r
    else
      match r with
      | [] => [[c]]
      | g :: gs => (c :: g) :: gs

/-- Parses a nonempty all-digit chunk. -/
def parseNatDigits (l : List Char) : Option Nat :=
  if !l.isEmpty && l.all Char.isDigit then some (digitsVal l) else none

/-- Modelled from the spec: the external date parser
(`helpers.cd_to_datetime`), which reads the source dataset's calendar-date
format `YYYY-Mon-DD HH:MM` (e.g. `2020-Jan-01 00:00`) into a calendar-time
value with zero seconds, and raises on malformed input. -/
def cd_to_datetime (s : String) : Option Datetime :=
  match splitOnChar ' ' s.toList with
  | [datePart, timePart] =>
    match splitOnChar '-' datePart, splitOnChar ':' timePart with
    | [ys, ms, ds], [hs, mis] => do
      let y ← parseNatDigits ys
      let m ← monthOfAbbrev ms
      let d ← parseNatDigits ds
      let h ← parseNatDigits hs
      let mi ← parseNatDigits mis
      if 1 ≤ d ∧ d ≤ 31 ∧ h ≤ 23 ∧ mi ≤ 59 then
        some ⟨y, m, d, h, mi, 0⟩
      else none
    | _, _ => none
  | _ => none

mutual

/-- The `NearEarthObject` class of `models.py`: designation, optional IAU
name, diameter (NaN when unknown), hazardous flag, and the collection of
close approaches (empty at construction, populated by an external linker). -/
inductive NearEarthObject : Type where
  | mk (designation : String) (name : Option String) (diameter : PyFloat)
       (hazardous : Bool) (approaches : List CloseApproach)

/-- The `CloseApproach` class of `models.py`: the referenced designation,
approach time, distance, velocity, and the NEO back-reference (`None` until
an external linking step resolves it). -/
inductive CloseApproach : Type where
  | mk (designation : String) (time : Datetime) (distance : PyFloat)
       (velocity : PyFloat) (neo : Option NearEarthObject)

end

def NearEarthObject.designation : NearEarthObject → String
  | .mk p _ _ _ _ => p

def NearEarthObject.name : NearEarthObject → Option String
  | .mk _ n _ _ _ => n

def NearEarthObject.diameter : NearEarthObject → PyFloat
  | .mk _ _ d _ _ => d

def NearEarthObject.hazardous : NearEarthObject → Bool
  | .mk _ _ _ h _ => h

def NearEarthObject.approaches : NearEarthObject → List CloseApproach
  | .mk _ _ _ _ a => a

def CloseApproach.designationRef : CloseApproach → String
  | .mk d _ _ _ _ => d

def CloseApproach.time : CloseApproach → Datetime
  | .mk _ t _ _ _ => t

def CloseApproach.distance : CloseApproach → PyFloat
  | .mk _ _ d _ _ => d

def CloseApproach.velocity : CloseApproach → PyFloat
  | .mk _ _ _ v _ => v

def CloseApproach.neo : CloseApproach → Option NearEarthObject
  | .mk _ _ _ _ n => n

/-- Coercion `float(s)` lifted into the exception monad: `ValueError` when
the string is not numeric. -/
def floatExc (s : String) : Except PyError PyFloat :=
  match parseFloat s with
  | some f => Except.ok f
  | none => Except.error PyError.valueError

/-- The diameter expression of `NearEarthObject.__init__` (models.py:45):
`float(diameter) if diameter else float('nan')` — a falsy (empty) string
yields the NaN sentinel, anything else goes through `float`. -/
def diameterExpr (s : String) : Except PyError PyFloat :=
  if s ≠ "" then floatExc s else Except.ok PyFloat.nan

/-- The constructor `NearEarthObject.__init__(pdes, name, diameter, pha)`
(models.py:35-48): name normalized to `None` when falsy, diameter as in
`diameterExpr`, hazardous exactly when `pha == 'Y'`, approaches empty. -/
def NearEarthObject.make (pdes name diameter pha : String) :
    Except PyError NearEarthObject :=
  match diameterExpr diameter with
  | Except.error e => Except.error e
  | Except.ok diam =>
    Except.ok (NearEarthObject.mk pdes (if name ≠ "" then some name else none)
      diam (pha == "Y") [])

/-- The external date parser lifted into the exception monad: `strptime`
raises `ValueError` on malformed input. -/
def cdExc (s : String) : Except PyError Datetime :=
  match cd_to_datetime s with
  | some d => Except.ok d
  | none => Except.error PyError.valueError

/-- The constructor `CloseApproach.__init__(des, cd, dist, v_rel)`
(models.py:82-92): parses `cd`, coerces `dist` and `v_rel` with `float`
(no fallback), and leaves `neo` unresolved (`None`). -/
def CloseApproach.make (des cd dist v_rel : String) :
    Except PyError CloseApproach :=
  match cdExc cd with
  | Except.error e => Except.error e
  | Except.ok t =>
    match floatExc dist with
    | Except.error e => Except.error e
    | Except.ok di =>
      match floatExc v_rel with
      | Except.error e => Except.error e
      | Except.ok v => Except.ok (CloseApproach.mk des t di v none)

/-- Python `str()` of the optional name as an f-string interpolates it:
the string itself when present, the literal `None` when absent. -/
def nameStr : Option String → String
  | some s => s
  | none => "None"

/-- The property `NearEarthObject.fullname` (models.py:50-53): the source
always renders `f'{designation} ({name})'`, parentheses included, even when
the name is absent (in which case the f-string shows `None`). -/
def NearEarthObject.fullname (n : NearEarthObject) : String :=
  n.designation ++ " (" ++ nameStr n.name ++ ")"

/-- The property `CloseApproach.time_str` (models.py:94-103): the
minute-precision display string of the approach time, via the shared
formatter. -/
def CloseApproach.time_str (c : CloseApproach) : String :=
  datetime_to_str c.time

/-- A Python value as it appears in a cell of a CSV row built by
`write_to_csv` (write.py:28): the row tuples hold the raw attribute values
(`item.time` is the datetime object itself), and the `csv` module
stringifies them on write. -/
inductive PyVal where
  | str (s : String)
  | float (f : PyFloat)
  | bool (b : Bool)
  | dt (d : Datetime)
  | none
deriving DecidableEq, Repr

/-- The optional name as it appears in a CSV cell: the value itself — the
`None` object when absent (the csv module later renders it literally). -/
def nameVal : Option String → PyVal
  | some s => PyVal.str s
  | Option.none => PyVal.none

/-- The effect the writer had on the target path when it returns or
raises: never opened, opened-for-write and truncated but left without
content, or fully written. -/
inductive FileEffect where
  | untouched
  | truncated
  | written
deriving DecidableEq, Repr

/-- The content a successful `write_to_csv` hands to the csv module: the
header tuple and one tuple of values per input record. -/
structure CsvFile where
  header : List String
  rows : List (List PyVal)
deriving DecidableEq, Repr

/-- A JSON value, the document `write_to_json` hands to `json.dump`. -/
inductive Json where
  | null
  | str (s : String)
  | num (f : PyFloat)
  | bool (b : Bool)
  | arr (xs : List Json)
  | obj (kvs : List (String × Json))

/-- The document and the indent argument passed to `json.dump`
(write.py:61). -/
structure JsonDump where
  value : Json
  indent : Nat

/-- Evaluates a Python list comprehension whose body may raise: elements in
order, first raised error propagated. -/
def traverseExcept (f : α → Except PyError β) : List α → Except PyError (List β)
  | [] => Except.ok []
  | x :: xs =>
    match f x with
    | Except.error e => Except.error e
    | Except.ok y =>
      match traverseExcept f xs with
      | Except.error e => Except.error e
      | Except.ok ys => Except.ok (y :: ys)

/-- Dereferencing `item.neo`: attribute access on the reference raises
`AttributeError` when it is still the `None` placeholder. -/
def getNeo (c : CloseApproach) : Except PyError NearEarthObject :=
  match c.neo with
  | some n => Except.ok n
  | Option.none => Except.error PyError.attributeError

/-- The header tuple of `write_to_csv` (write.py:27). -/
def csvFieldnames : List String :=
  ["datetime_utc", "distance_au", "velocity_km_s", "designation", "name",
   "diameter_km", "potentially_hazardous"]

/-- One element of the row comprehension of `write_to_csv` (write.py:28):
`(item.time, item.distance, item.velocity, item.neo.designation,
item.neo.name, item.neo.diameter, item.neo.hazardous)`. -/
def csvRow (c : CloseApproach) : Except PyError (List PyVal) :=
  match getNeo c with
  | Except.error e => Except.error e
  | Except.ok n =>
    Except.ok [PyVal.dt c.time, PyVal.float c.distance, PyVal.float c.velocity,
      PyVal.str n.designation, nameVal n.name, PyVal.float n.diameter,
      PyVal.bool n.hazardous]

/-- The function `write_to_csv(results, filename)` (write.py:17-32): the
row comprehension runs on line 28, before `open(filename, 'w')` on line 29,
so a raised error leaves the target untouched; on success the header and
the rows are written in input order. -/
def write_to_csv (results : List CloseApproach) :
    FileEffect × Except PyError CsvFile :=
  match traverseExcept csvRow results with
  | Except.error e => (FileEffect.untouched, Except.error e)
  | Except.ok rows => (FileEffect.written, Except.ok ⟨csvFieldnames, rows⟩)

/-- One element of the mapping comprehension of `write_to_json`
(write.py:47-60): the `datetime_utc` key holds the display string
`helpers.datetime_to_str(item.time)` and `neo` a nested mapping of the
linked NEO's four attributes. -/
def jsonEntry (c : CloseApproach) : Except PyError Json :=
  match getNeo c with
  | Except.error e => Except.error e
  | Except.ok n =>
    Except.ok (Json.obj
    [("datetime_utc", Json.str (datetime_to_str c.time)),
     ("distance_au", Json.num c.distance),
     ("velocity_km_s", Json.num c.velocity),
     ("neo", Json.obj
       [("designation", Json.str n.designation),
        ("name", match n.name with
                 | some s => Json.str s
                 | Option.none => Json.null),
        ("diameter_km", Json.num n.diameter),
        ("potentially_hazardous", Json.bool n.hazardous)])])

/-- The function `write_to_json(results, filename)` (write.py:35-61):
`open(filename, 'w')` on line 46 truncates the target before the
comprehension runs, so a raised error leaves a truncated (empty) file; on
success `json.dump(results, f, indent=2)` writes the array. -/
def write_to_json (results : List CloseApproach) :
    FileEffect × Except PyError JsonDump :=
  match traverseExcept jsonEntry results with
  | Except.error e => (FileEffect.truncated, Except.error e)
  | Except.ok entries => (FileEffect.written, Except.ok ⟨Json.arr entries, 2⟩)

/-- The row `write_to_csv` builds for a linked record, as a function of the
record alone (the `[]` branch is unreachable on linked inputs and exists
only to totalize the function). -/
def csvRowOf (c : CloseApproach) : List PyVal :=
  match c.neo with
  | some n => [PyVal.dt c.time, PyVal.float c.distance, PyVal.float c.velocity,
      PyVal.str n.designation, nameVal n.name, PyVal.float n.diameter,
      PyVal.bool n.hazardous]
  | Option.none => []

/-- The object `write_to_json` builds for a linked record, as a function of
the record alone (the `null` branch is unreachable on linked inputs and
exists only to totalize the function). -/
def jsonEntryOf (c : CloseApproach) : Json :=
  match c.neo with
  | some n => Json.obj
      [("datetime_utc", Json.str (datetime_to_str c.time)),
       ("distance_au", Json.num c.distance),
       ("velocity_km_s", Json.num c.velocity),
       ("neo", Json.obj
         [("designation", Json.str n.designation),
          ("name", match n.name with
                   | some s => Json.str s
                   | Option.none => Json.null),
          ("diameter_km", Json.num n.diameter),
          ("potentially_hazardous", Json.bool n.hazardous)])]
  | Option.none => Json.null

theorem csvRow_of_linked (c : CloseApproach) (hn : c.neo ≠ Option.none) :
    csvRow c = Except.ok (csvRowOf c) := by
  cases hcn : c.neo with
  | none => exact absurd hcn hn
  | some n => simp [csvRow, csvRowOf, getNeo, hcn]

theorem jsonEntry_of_linked (c : CloseApproach) (hn : c.neo ≠ Option.none) :
    jsonEntry c = Except.ok (jsonEntryOf c) := by
  cases hcn : c.neo with
  | none => exact absurd hcn hn
  | some n => simp [jsonEntry, jsonEntryOf, getNeo, hcn]

theorem traverseExcept_map {α β : Type} (f : α → Except PyError β) (g : α → β)
    (l : List α) (h : ∀ a ∈ l, f a = Except.ok (g a)) :
    traverseExcept f l = Except.ok (l.map g) := by
  induction l with
  | nil => rfl
  | cons x xs ih =>
    have hx := h x (List.mem_cons_self x xs)
    have hxs := ih (fun a ha => h a (List.mem_cons_of_mem x ha))
    simp [traverseExcept, hx, hxs]

theorem traverseExcept_err {α β : Type} (f : α → Except PyError β) (e0 : PyError)
    (l : List α)
    (hall : ∀ a ∈ l, f a = Except.error e0 ∨ ∃ b, f a = Except.ok b)
    (hex : ∃ a ∈ l, f a = Except.error e0) :
    traverseExcept f l = Except.error e0 := by
  induction l with
  | nil => rcases hex with ⟨a, ha, _⟩; cases ha
  | cons x xs ih =>
    rcases hall x (List.mem_cons_self x xs) with hx | ⟨b, hb⟩
    · simp [traverseExcept, hx]
    · rcases hex with ⟨a, ha, hae⟩
      rcases List.mem_cons.mp ha with rfl | ha2
      · rw [hb] at hae; cases hae
      · have hxs := ih (fun a2 h2 => hall a2 (List.mem_cons_of_mem x h2))
          ⟨a, ha2, hae⟩
        simp [traverseExcept, hb, hxs]

theorem neo_make_eq (pdes name diameter pha : String) :
    NearEarthObject.make pdes name diameter pha =
      match diameterExpr diameter with
      | Except.error e => Except.error e
      | Except.ok f => Except.ok (NearEarthObject.mk pdes
          (if name ≠ "" then some name else Option.none) f (pha == "Y") []) := by
  rfl

theorem ca_make_eq (des cd dist v_rel : String) :
    CloseApproach.make des cd dist v_rel =
      match cdExc cd with
      | Except.error e => Except.error e
      | Except.ok t =>
        match floatExc dist with
        | Except.error e => Except.error e
        | Except.ok di =>
          match floatExc v_rel with
          | Except.error e => Except.error e
          | Except.ok v => Except.ok (CloseApproach.mk des t di v Option.none) := by
  rfl

/-- The full string form of a datetime always differs from the display
form: it is the display form plus a nonempty seconds suffix. -/
theorem fullStr_ne_displayStr (d : Datetime) :
    Datetime.fullStr d ≠ datetime_to_str d := by
  intro h
  have hl := congrArg String.length h
  rw [Datetime.fullStr, String.length_append, String.length_append] at hl
  have h1 : (":" : String).length = 1 := rfl
  omega

/-- A sample NEO with no name and unknown diameter (spec §8's scenario). -/
def neo0 : NearEarthObject :=
  NearEarthObject.mk "2020 AB" Option.none PyFloat.nan false []

/-- A sample fully-linked close approach (spec §8's scenario). -/
def ca0 : CloseApproach :=
  CloseApproach.mk "2020 AB" ⟨2020, 1, 1, 0, 0, 0⟩ (PyFloat.num (mkRat 9 20))
    (PyFloat.num (mkRat 66 5)) (some neo0)

/-- A sample close approach whose NEO reference is still unresolved. -/
def caUnlinked : CloseApproach :=
  CloseApproach.mk "433" ⟨2020, 1, 1, 12, 30, 0⟩ (PyFloat.num (mkRat 1 2))
    (PyFloat.num 9) Option.none

example : parseFloat "" = none := by decide
example : parseFloat "13.2" = some (PyFloat.num (mkRat 66 5)) := by decide
example : parseFloat "-1.5" = some (PyFloat.num (mkRat (-3) 2)) := by decide
example : parseFloat "nan" = some PyFloat.nan := by decide
example : NearEarthObject.make "2020 AB" "" "" "N" =
    Except.ok (NearEarthObject.mk "2020 AB" none PyFloat.nan false []) := rfl
example : CloseApproach.make "2020 AB" "2020-Jan-01 00:00" "0.45" "13.2" =
    Except.ok (CloseApproach.mk "2020 AB" ⟨2020, 1, 1, 0, 0, 0⟩
      (PyFloat.num (mkRat 9 20)) (PyFloat.num (mkRat 66 5)) none) := rfl
example : CloseApproach.make "2020 AB" "2020-Jan-01 00:00" "" "13.2" =
    Except.error PyError.valueError := rfl
example : parseFloat "abc" = none := by decide
example : cd_to_datetime "2020-Jan-01 00:00" = some ⟨2020, 1, 1, 0, 0, 0⟩ := by decide

/-- C3: for every hazardous_flag input to the NearEarthObject constructor,
the resulting `hazardous` attribute is a concrete boolean that is true iff
the flag is exactly the case-sensitive string "Y"; every other input
(including "y", "N" and the empty string) yields false. -/
theorem hazardous_iff_exact_Y (pdes name diameter pha : String)
    (n : NearEarthObject)
    (h : NearEarthObject.make pdes name diameter pha = Except.ok n) :
    n.hazardous = true ↔ pha = "Y" := by
  rw [neo_make_eq] at h
  cases hd : diameterExpr diameter with
  | error e => rw [hd] at h; cases h
  | ok f =>
    rw [hd] at h
    injection h with h2
    subst h2
    simp [NearEarthObject.hazardous]

theorem hazardous_iff_exact_Y_witness :
    ((NearEarthObject.mk "2020 AB" Option.none PyFloat.nan false []).hazardous
        = true ↔ "y" = "Y") ∧
    ((NearEarthObject.mk "2020 AB" Option.none PyFloat.nan true []).hazardous
        = true ↔ "Y" = "Y") :=
  ⟨hazardous_iff_exact_Y "2020 AB" "" "" "y" _ rfl,
   hazardous_iff_exact_Y "2020 AB" "" "" "Y" _ rfl⟩

/-- C9: every empty/falsy name input to the NearEarthObject constructor is
stored as the explicit absent-name marker (`None`), never as an empty
string; every non-empty name is stored unchanged. -/
theorem name_normalization (pdes name diameter pha : String)
    (n : NearEarthObject)
    (h : NearEarthObject.make pdes name diameter pha = Except.ok n) :
    (name = "" → n.name = Option.none) ∧
    (name ≠ "" → n.name = some name) := by
  rw [neo_make_eq] at h
  cases hd : diameterExpr diameter with
  | error e => rw [hd] at h; cases h
  | ok f =>
    rw [hd] at h
    injection h with h2
    subst h2
    constructor
    · intro he
      simp [NearEarthObject.name, he]
    · intro he
      simp [NearEarthObject.name, he]

theorem name_normalization_witness :
    (NearEarthObject.mk "1" Option.none PyFloat.nan false []).name
        = Option.none ∧
    (NearEarthObject.mk "433" (some "Eros") PyFloat.nan false []).name
        = some "Eros" :=
  ⟨(name_normalization "1" "" "" "N" _ rfl).1 rfl,
   (name_normalization "433" "Eros" "" "N" _ rfl).2 (by decide)⟩

/-- C4: in the NearEarthObject constructor, every empty diameter input
normalizes to the NaN sentinel without raising; every other diameter input
is coerced to float, failing with a value error exactly when it is not
numeric; and diameter coercion is the constructor's only fallible step
(any raised error is a value error caused by the diameter field). -/
theorem diameter_only_fallible (pdes name diameter pha : String) :
    (diameter = "" → NearEarthObject.make pdes name diameter pha =
      Except.ok (NearEarthObject.mk pdes
        (if name ≠ "" then some name else Option.none) PyFloat.nan
        (pha == "Y") [])) ∧
    (∀ f, parseFloat diameter = some f →
      NearEarthObject.make pdes name diameter pha =
        Except.ok (NearEarthObject.mk pdes
          (if name ≠ "" then some name else Option.none) f (pha == "Y") [])) ∧
    (diameter ≠ "" → parseFloat diameter = none →
      NearEarthObject.make pdes name diameter pha =
        Except.error PyError.valueError) ∧
    (∀ e, NearEarthObject.make pdes name diameter pha = Except.error e →
      e = PyError.valueError ∧ diameter ≠ "" ∧ parseFloat diameter = none) := by
  refine ⟨?_, ?_, ?_, ?_⟩
  · intro he
    subst he
    rw [neo_make_eq]
    rfl
  · intro f hf
    have hne : diameter ≠ "" := by
      intro he
      subst he
      cases hf
    rw [neo_make_eq]
    simp [diameterExpr, floatExc, hne, hf]
  · intro hne hnone
    rw [neo_make_eq]
    simp [diameterExpr, floatExc, hne, hnone]
  · intro e he
    rw [neo_make_eq] at he
    by_cases hne : diameter = ""
    · subst hne
      simp [diameterExpr] at he
    · cases hp : parseFloat diameter with
      | none =>
        simp [diameterExpr, floatExc, hne, hp] at he
        exact ⟨he.symm, hne, rfl⟩
      | some f =>
        simp [diameterExpr, floatExc, hne, hp] at he

theorem diameter_only_fallible_witness :
    NearEarthObject.make "433" "Eros" "" "N" =
      Except.ok (NearEarthObject.mk "433"
        (if "Eros" ≠ "" then some "Eros" else Option.none) PyFloat.nan
        ("N" == "Y") []) ∧
    NearEarthObject.make "433" "Eros" "1.5" "N" =
      Except.ok (NearEarthObject.mk "433"
        (if "Eros" ≠ "" then some "Eros" else Option.none)
        (PyFloat.num (mkRat 3 2)) ("N" == "Y") []) ∧
    NearEarthObject.make "433" "Eros" "abc" "N" =
      Except.error PyError.valueError :=
  ⟨(diameter_only_fallible "433" "Eros" "" "N").1 rfl,
   (diameter_only_fallible "433" "Eros" "1.5" "N").2.1
     (PyFloat.num (mkRat 3 2)) (by decide),
   (diameter_only_fallible "433" "Eros" "abc" "N").2.2.1
     (by decide) (by decide)⟩

/-- C5: constructing a CloseApproach fails with a value error whenever
distance or velocity is not coercible to float (in particular distance ""),
while constructing a NearEarthObject with an empty diameter succeeds with a
NaN diameter — the asymmetry between the required distance/velocity fields
and the optional diameter field. -/
theorem required_fields_asymmetry (des cd dist v_rel pdes name pha : String)
    (h : parseFloat dist = none ∨ parseFloat v_rel = none) :
    CloseApproach.make des cd dist v_rel = Except.error PyError.valueError ∧
    NearEarthObject.make pdes name "" pha =
      Except.ok (NearEarthObject.mk pdes
        (if name ≠ "" then some name else Option.none) PyFloat.nan
        (pha == "Y") []) := by
  constructor
  · rw [ca_make_eq]
    cases hcd : cd_to_datetime cd with
    | none => simp [cdExc, hcd]
    | some t =>
      rcases h with hd | hv
      · simp [cdExc, hcd, floatExc, hd]
      · cases hpd : parseFloat dist with
        | none => simp [cdExc, hcd, floatExc, hpd]
        | some f => simp [cdExc, hcd, floatExc, hpd, hv]
  · rw [neo_make_eq]
    rfl

theorem required_fields_asymmetry_witness :
    CloseApproach.make "2020 AB" "2020-Jan-01 00:00" "" "13.2" =
      Except.error PyError.valueError ∧
    NearEarthObject.make "2020 AB" "" "" "N" =
      Except.ok (NearEarthObject.mk "2020 AB"
        (if "" ≠ "" then some "" else Option.none) PyFloat.nan
        ("N" == "Y") []) :=
  required_fields_asymmetry "2020 AB" "2020-Jan-01 00:00" "" "13.2"
    "2020 AB" "" "N" (Or.inl (by decide))

/-- C6 counterexample: the claim says `fullname` equals the designation
alone when the name is absent, but `models.py:53` renders the f-string
`f'{designation} ({name})'` unconditionally, so an NEO constructed without
a name has fullname `"2020 AB (None)"`, not `"2020 AB"`. -/
theorem fullname_claim_counterexample :
    NearEarthObject.make "2020 AB" "" "" "N" = Except.ok neo0 ∧
    neo0.name = Option.none ∧
    neo0.fullname = "2020 AB (None)" ∧
    neo0.fullname ≠ "2020 AB" :=
  ⟨rfl, rfl, by decide, by decide⟩

/-- C6 (amended): `NearEarthObject.fullname` is the pure derived string
`"<designation> (<name>)"` when the name is present, and
`"<designation> (None)"` — the literal rendering of the absent-name
marker — when the name is absent; it is never the designation alone. -/
theorem fullname_always_parenthesized (n : NearEarthObject) :
    (∀ s, n.name = some s →
      n.fullname = n.designation ++ " (" ++ s ++ ")") ∧
    (n.name = Option.none →
      n.fullname = n.designation ++ " (None)") := by
  constructor
  · intro s hs
    rw [NearEarthObject.fullname, hs]
    rfl
  · intro hs
    rw [NearEarthObject.fullname, hs]
    rw [String.append_assoc, String.append_assoc]
    rfl

theorem fullname_always_parenthesized_witness :
    neo0.fullname = neo0.designation ++ " (None)" :=
  (fullname_always_parenthesized neo0).2 rfl

/-- C1: `write_to_csv` on fully-linked records writes the seven-field
header in order, then exactly one row per record in input order; the first
cell is the datetime value itself (rendered in its natural full string
form, which is never the minute-truncated display form) and the remaining
cells are the distance, velocity, and the linked NEO's designation, name,
diameter and hazardous values. -/
theorem write_to_csv_spec (results : List CloseApproach)
    (h : ∀ c ∈ results, c.neo ≠ Option.none) :
    write_to_csv results =
      (FileEffect.written, Except.ok ⟨csvFieldnames, results.map csvRowOf⟩) ∧
    (∀ c ∈ results, ∀ n, c.neo = some n →
      csvRowOf c = [PyVal.dt c.time, PyVal.float c.distance,
        PyVal.float c.velocity, PyVal.str n.designation, nameVal n.name,
        PyVal.float n.diameter, PyVal.bool n.hazardous]) ∧
    (∀ c ∈ results, Datetime.fullStr c.time ≠ datetime_to_str c.time) := by
  refine ⟨?_, ?_, ?_⟩
  · have ht := traverseExcept_map csvRow csvRowOf results
      (fun c hc => csvRow_of_linked c (h c hc))
    simp [write_to_csv, ht]
  · intro c _ n hn
    simp [csvRowOf, hn]
  · intro c _
    exact fullStr_ne_displayStr c.time

theorem write_to_csv_spec_witness :
    (write_to_csv [ca0] =
      (FileEffect.written, Except.ok ⟨csvFieldnames, [ca0].map csvRowOf⟩)) ∧
    (∀ c ∈ [ca0], ∀ n, c.neo = some n →
      csvRowOf c = [PyVal.dt c.time, PyVal.float c.distance,
        PyVal.float c.velocity, PyVal.str n.designation, nameVal n.name,
        PyVal.float n.diameter, PyVal.bool n.hazardous]) ∧
    (∀ c ∈ [ca0], Datetime.fullStr c.time ≠ datetime_to_str c.time) :=
  write_to_csv_spec [ca0] (by
    intro c hc
    rw [List.mem_singleton] at hc
    subst hc
    exact fun hcon => Option.noConfusion hcon)

/-- C2: `write_to_json` on fully-linked records produces a single JSON
array, dumped with indent 2, of one object per record in input order; each
object has exactly the keys `datetime_utc` (the minute-precision display
string of the shared formatter), `distance_au`, `velocity_km_s` and `neo`,
whose value is a nested object with exactly the keys `designation`,
`name`, `diameter_km`, `potentially_hazardous` from the linked NEO. -/
theorem write_to_json_spec (results : List CloseApproach)
    (h : ∀ c ∈ results, c.neo ≠ Option.none) :
    write_to_json results =
      (FileEffect.written,
       Except.ok ⟨Json.arr (results.map jsonEntryOf), 2⟩) ∧
    (∀ c ∈ results, ∀ n, c.neo = some n →
      jsonEntryOf c = Json.obj
        [("datetime_utc", Json.str (datetime_to_str c.time)),
         ("distance_au", Json.num c.distance),
         ("velocity_km_s", Json.num c.velocity),
         ("neo", Json.obj
           [("designation", Json.str n.designation),
            ("name", match n.name with
                     | some s => Json.str s
                     | Option.none => Json.null),
            ("diameter_km", Json.num n.diameter),
            ("potentially_hazardous", Json.bool n.hazardous)])]) := by
  constructor
  · have ht := traverseExcept_map jsonEntry jsonEntryOf results
      (fun c hc => jsonEntry_of_linked c (h c hc))
    simp [write_to_json, ht]
  · intro c _ n hn
    simp [jsonEntryOf, hn]

theorem write_to_json_spec_witness :
    (write_to_json [ca0] =
      (FileEffect.written,
       Except.ok ⟨Json.arr ([ca0].map jsonEntryOf), 2⟩)) ∧
    (∀ c ∈ [ca0], ∀ n, c.neo = some n →
      jsonEntryOf c = Json.obj
        [("datetime_utc", Json.str (datetime_to_str c.time)),
         ("distance_au", Json.num c.distance),
         ("velocity_km_s", Json.num c.velocity),
         ("neo", Json.obj
           [("designation", Json.str n.designation),
            ("name", match n.name with
                     | some s => Json.str s
                     | Option.none => Json.null),
            ("diameter_km", Json.num n.diameter),
            ("potentially_hazardous", Json.bool n.hazardous)])]) :=
  write_to_json_spec [ca0] (by
    intro c hc
    rw [List.mem_singleton] at hc
    subst hc
    exact fun hcon => Option.noConfusion hcon)

theorem traverse_unlinked_csv (results : List CloseApproach)
    (h : ∃ c ∈ results, c.neo = Option.none) :
    traverseExcept csvRow results = Except.error PyError.attributeError := by
  refine traverseExcept_err csvRow PyError.attributeError results ?_ ?_
  · intro a _
    cases hn : a.neo with
    | none => exact Or.inl (by simp [csvRow, getNeo, hn])
    | some n => exact Or.inr ⟨csvRowOf a, csvRow_of_linked a (by simp [hn])⟩
  · rcases h with ⟨c, hc, hcn⟩
    exact ⟨c, hc, by simp [csvRow, getNeo, hcn]⟩

theorem traverse_unlinked_json (results : List CloseApproach)
    (h : ∃ c ∈ results, c.neo = Option.none) :
    traverseExcept jsonEntry results = Except.error PyError.attributeError := by
  refine traverseExcept_err jsonEntry PyError.attributeError results ?_ ?_
  · intro a _
    cases hn : a.neo with
    | none => exact Or.inl (by simp [jsonEntry, getNeo, hn])
    | some n => exact Or.inr ⟨jsonEntryOf a, jsonEntry_of_linked a (by simp [hn])⟩
  · rcases h with ⟨c, hc, hcn⟩
    exact ⟨c, hc, by simp [jsonEntry, getNeo, hcn]⟩

/-- C8: if any record in the input still has an unresolved `neo`
reference, both writers raise `AttributeError` when they reach it; neither
silently produces output with blank fields for the unlinked record. -/
theorem writers_fail_on_unlinked (results : List CloseApproach)
    (h : ∃ c ∈ results, c.neo = Option.none) :
    (write_to_csv results).2 = Except.error PyError.attributeError ∧
    (write_to_json results).2 = Except.error PyError.attributeError := by
  have h1 := traverse_unlinked_csv results h
  have h2 := traverse_unlinked_json results h
  constructor
  · simp [write_to_csv, h1]
  · simp [write_to_json, h2]

theorem writers_fail_on_unlinked_witness :
    ((write_to_csv [caUnlinked]).2 = Except.error PyError.attributeError) ∧
    ((write_to_json [caUnlinked]).2 = Except.error PyError.attributeError) :=
  writers_fail_on_unlinked [caUnlinked]
    ⟨caUnlinked, List.mem_singleton.mpr rfl, rfl⟩

/-- C10: the writers differ in atomicity on an unresolved-NEO error:
`write_to_csv` builds all rows (dereferencing every `neo`) before opening
the target, so the error leaves the file untouched, while `write_to_json`
opens (and truncates) the target before building the objects, so the same
error leaves behind a truncated (empty) file. -/
theorem writer_file_effect_asymmetry (results : List CloseApproach)
    (h : ∃ c ∈ results, c.neo = Option.none) :
    (write_to_csv results).1 = FileEffect.untouched ∧
    (write_to_json results).1 = FileEffect.truncated := by
  have h1 := traverse_unlinked_csv results h
  have h2 := traverse_unlinked_json results h
  constructor
  · simp [write_to_csv, h1]
  · simp [write_to_json, h2]

theorem writer_file_effect_asymmetry_witness :
    ((write_to_csv [ca0, caUnlinked]).1 = FileEffect.untouched) ∧
    ((write_to_json [ca0, caUnlinked]).1 = FileEffect.truncated) :=
  writer_file_effect_asymmetry [ca0, caUnlinked]
    ⟨caUnlinked, List.mem_cons_of_mem ca0 (List.mem_singleton.mpr rfl), rfl⟩

/-- A sample fully-linked close approach whose parsed time carries
sub-minute detail (30 seconds). -/
def ca30 : CloseApproach :=
  CloseApproach.mk "2020 AB" ⟨2020, 1, 1, 0, 0, 30⟩ (PyFloat.num (mkRat 9 20))
    (PyFloat.num (mkRat 66 5)) (some neo0)

/-- C7: for a fully-linked record whose time has nonzero seconds, the CSV
writer's first cell is the time value itself — rendered in its natural full
string form — while the JSON writer's `datetime_utc` is the record's
`time_str` (the minute-truncated display string of the shared formatter),
and the two renderings of the same instant differ. -/
theorem csv_json_datetime_asymmetry (c : CloseApproach) (n : NearEarthObject)
    (hn : c.neo = some n) (hs : c.time.second ≠ 0) :
    write_to_csv [c] = (FileEffect.written, Except.ok ⟨csvFieldnames,
      [[PyVal.dt c.time, PyVal.float c.distance, PyVal.float c.velocity,
        PyVal.str n.designation, nameVal n.name, PyVal.float n.diameter,
        PyVal.bool n.hazardous]]⟩) ∧
    write_to_json [c] = (FileEffect.written, Except.ok ⟨Json.arr
      [Json.obj
        [("datetime_utc", Json.str c.time_str),
         ("distance_au", Json.num c.distance),
         ("velocity_km_s", Json.num c.velocity),
         ("neo", Json.obj
           [("designation", Json.str n.designation),
            ("name", match n.name with
                     | some s => Json.str s
                     | Option.none => Json.null),
            ("diameter_km", Json.num n.diameter),
            ("potentially_hazardous", Json.bool n.hazardous)])]], 2⟩) ∧
    Datetime.fullStr c.time ≠ c.time_str := by
  refine ⟨?_, ?_, ?_⟩
  · simp [write_to_csv, traverseExcept, csvRow, getNeo, hn]
  · simp [write_to_json, traverseExcept, jsonEntry, getNeo, hn,
      CloseApproach.time_str]
  · rw [CloseApproach.time_str]
    exact fullStr_ne_displayStr c.time

theorem csv_json_datetime_asymmetry_witness :
    write_to_csv [ca30] = (FileEffect.written, Except.ok ⟨csvFieldnames,
      [[PyVal.dt ca30.time, PyVal.float ca30.distance,
        PyVal.float ca30.velocity, PyVal.str neo0.designation,
        nameVal neo0.name, PyVal.float neo0.diameter,
        PyVal.bool neo0.hazardous]]⟩) ∧
    write_to_json [ca30] = (FileEffect.written, Except.ok ⟨Json.arr
      [Json.obj
        [("datetime_utc", Json.str ca30.time_str),
         ("distance_au", Json.num ca30.distance),
         ("velocity_km_s", Json.num ca30.velocity),
         ("neo", Json.obj
           [("designation", Json.str neo0.designation),
            ("name", match neo0.name with
                     | some s => Json.str s
                     | Option.none => Json.null),
            ("diameter_km", Json.num neo0.diameter),
            ("potentially_hazardous", Json.bool neo0.hazardous)])]], 2⟩) ∧
    Datetime.fullStr ca30.time ≠ ca30.time_str :=
  csv_json_datetime_asymmetry ca30 neo0 rfl (by decide)
